import Mathlib

/-
  Verification of the jp-go-errors retry-classification library.

  The Go source is shallowly embedded: each typed error variant becomes a
  constructor of `GoError`; Go error values are pointers compared by identity,
  which we model by structural equality with sentinels carrying distinct ids.
  All definitions are translated from errors.go, retryable.go, resilience.go
  and options.go of the repository.
-/

set_option maxRecDepth 4000

/-- CircuitCounts mirrors gobreaker.Counts (resilience.go): five uint32
observability counters. Arithmetic is never performed on them, so Nat is used. -/
structure CircuitCounts where
  requests : Nat
  totalSuccesses : Nat
  totalFailures : Nat
  consecutiveSuccesses : Nat
  consecutiveFailures : Nat
deriving DecidableEq

/-- The all-zero counts value (Go zero value of the struct). -/
def zeroCircuitCounts : CircuitCounts := ⟨0, 0, 0, 0, 0⟩

/-- The error data model.  One constructor per concrete Go error shape:

* `sentinel id msg` — a package-level `errors.New` value (ErrRateLimited,
  context.DeadlineExceeded, ...).  Go compares these by pointer identity;
  each gets a unique `id`.
* `basic msg` — a plain error with no `Unwrap` (e.g. `fmt.Errorf` without %w).
* `netError isTimeout msg` — an external value implementing Go's `net.Error`
  interface (it does not implement the library's `Retryable` interface).
* `wrapped msg cause` — a `Wrap`/`Wrapf` annotation node (cockroachdb/errors);
  it exposes `Unwrap` but no `IsRetryable`.
* one constructor per typed variant of errors.go / resilience.go, fields in
  source order.  `ValidationError.Value` has Go type `any`; it is modelled as
  `Option Int` since no translated function inspects it.  `time.Duration`
  fields are modelled as `Int` (nanosecond counts).
* `circuitBreaker` carries a `counts` field.  The field is absent from the
  provided errors.go but is read by the repository's tests (`err.Counts`);
  it is modelled from the spec (set-counts carries observability counters).
* `retryErr` is RetryError from resilience.go (attempts, max attempts, last
  error, all errors, operation, component).
* `foreign retry msg cause` — an error type defined outside this library that
  implements the `Retryable` interface with a fixed verdict `retry`. -/
inductive GoError where
  | sentinel (id : Nat) (msg : String)
  | basic (msg : String)
  | netError (isTimeout : Bool) (msg : String)
  | wrapped (msg : String) (cause : GoError)
  | http (statusCode : Int) (message component : String) (err : Option GoError)
  | rateLimit (message operation component : String) (retryAfter : Int) (err : Option GoError)
  | retryable (message operation component : String) (retryAfter : Int) (err : Option GoError)
  | timeout (message operation component : String) (duration : Int) (err : Option GoError)
  | validation (message field component : String) (value : Option Int) (err : Option GoError)
  | processing (message operation itemID component : String) (retryableFlag : Bool) (err : Option GoError)
  | network (message operation component : String) (isTransient : Bool) (err : Option GoError)
  | circuitBreaker (message operation component state : String) (counts : CircuitCounts) (err : Option GoError)
  | retryErr (attempts maxAttempts : Int) (lastError : Option GoError) (allErrors : List GoError) (operation component : String)
  | foreign (retry : Bool) (msg : String) (err : Option GoError)

namespace GoError
end GoError

/-- context.DeadlineExceeded (std library sentinel). -/
def ctxDeadlineExceeded : GoError := .sentinel 100 "context deadline exceeded"

/-- context.Canceled (std library sentinel). -/
def ctxCanceled : GoError := .sentinel 101 "context canceled"

/-- ErrRateLimited = errors.New("rate limited") (errors.go). -/
def ErrRateLimited : GoError := .sentinel 0 "rate limited"

/-- ErrNetworkTimeout = errors.New("network timeout") (errors.go). -/
def ErrNetworkTimeout : GoError := .sentinel 1 "network timeout"

/-- ErrServerError = errors.New("server error") (errors.go). -/
def ErrServerError : GoError := .sentinel 2 "server error"

/-- ErrConnectionError = errors.New("connection error") (errors.go). -/
def ErrConnectionError : GoError := .sentinel 3 "connection error"

/-- ErrDeadlock = errors.New("database deadlock") (errors.go). -/
def ErrDeadlock : GoError := .sentinel 4 "database deadlock"

/-- ErrCircuitOpen = errors.New("circuit breaker open") (errors.go). -/
def ErrCircuitOpen : GoError := .sentinel 5 "circuit breaker open"

/-- ErrInvalidResponse = errors.New("invalid response") (errors.go). -/
def ErrInvalidResponse : GoError := .sentinel 6 "invalid response"

/-- ErrCircuitHalfOpen (resilience.go). -/
def ErrCircuitHalfOpen : GoError := .sentinel 7 "circuit breaker half-open, too many requests"

/-- ErrRetryExhausted (resilience.go). -/
def ErrRetryExhausted : GoError := .sentinel 8 "retry attempts exhausted"

/-- ErrMaxAttemptsInvalid (resilience.go). -/
def ErrMaxAttemptsInvalid : GoError := .sentinel 9 "max retry attempts must be positive"

/-- The `Unwrap` method of each shape.  Every typed variant of errors.go
returns its `Err` field; `RetryError.Unwrap` (resilience.go) returns the
`ErrRetryExhausted` sentinel, not `LastError`; sentinels, plain errors and
`net.Error` values do not unwrap. -/
def Unwrap : GoError → Option GoError
  | .sentinel _ _ => none
  | .basic _ => none
  | .netError _ _ => none
  | .wrapped _ c => some c
  | .http _ _ _ e => e
  | .rateLimit _ _ _ _ e => e
  | .retryable _ _ _ _ e => e
  | .timeout _ _ _ _ e => e
  | .validation _ _ _ _ e => e
  | .processing _ _ _ _ _ e => e
  | .network _ _ _ _ e => e
  | .circuitBreaker _ _ _ _ _ e => e
  | .retryErr _ _ _ _ _ _ => some ErrRetryExhausted
  | .foreign _ _ e => e

/-- The causes strictly below an error in its chain, in unwrap order.
Written by direct recursion (mirroring `Unwrap` case by case) so that the
definition is structurally recursive and computes by `rfl`/`decide`. -/
def chainRest : GoError → List GoError
  | .sentinel _ _ => []
  | .basic _ => []
  | .netError _ _ => []
  | .wrapped _ c => c :: chainRest c
  | .http _ _ _ (some c) => c :: chainRest c
  | .http _ _ _ none => []
  | .rateLimit _ _ _ _ (some c) => c :: chainRest c
  | .rateLimit _ _ _ _ none => []
  | .retryable _ _ _ _ (some c) => c :: chainRest c
  | .retryable _ _ _ _ none => []
  | .timeout _ _ _ _ (some c) => c :: chainRest c
  | .timeout _ _ _ _ none => []
  | .validation _ _ _ _ (some c) => c :: chainRest c
  | .validation _ _ _ _ none => []
  | .processing _ _ _ _ _ (some c) => c :: chainRest c
  | .processing _ _ _ _ _ none => []
  | .network _ _ _ _ (some c) => c :: chainRest c
  | .network _ _ _ _ none => []
  | .circuitBreaker _ _ _ _ _ (some c) => c :: chainRest c
  | .circuitBreaker _ _ _ _ _ none => []
  | .retryErr _ _ _ _ _ _ => [ErrRetryExhausted]
  | .foreign _ _ (some c) => c :: chainRest c
  | .foreign _ _ none => []

/-- The full error chain: the error itself followed by all its causes.
This is the path walked by errors.Is / errors.As. -/
def chain (e : GoError) : List GoError := e :: chainRest e

/-- Identity of Go error values, as used by `errors.Is` comparisons.
Go compares interface values with `==` (pointer identity for the pointer-typed
variants, value identity for sentinels).  We model identity structurally;
sentinels are distinguished by their unique ids.  `RetryError.AllErrors` is a
slice: in Go a `*RetryError` is compared by pointer, and no code or claim ever
performs an `Is` comparison that inspects `AllErrors`, so the list field does
not participate in the comparison (keeping the definition structurally
recursive). -/
def goErrEq : GoError → GoError → Bool
  | .sentinel i m, .sentinel j n => i == j && m == n
  | .basic m, .basic n => m == n
  | .netError t m, .netError u n => t == u && m == n
  | .wrapped m c, .wrapped n d => m == n && goErrEq c d
  | .http s m cp none, .http s2 m2 cp2 none => s == s2 && m == m2 && cp == cp2
  | .http s m cp (some c), .http s2 m2 cp2 (some d) => s == s2 && m == m2 && cp == cp2 && goErrEq c d
  | .rateLimit m o cp r none, .rateLimit m2 o2 cp2 r2 none => m == m2 && o == o2 && cp == cp2 && r == r2
  | .rateLimit m o cp r (some c), .rateLimit m2 o2 cp2 r2 (some d) => m == m2 && o == o2 && cp == cp2 && r == r2 && goErrEq c d
  | .retryable m o cp r none, .retryable m2 o2 cp2 r2 none => m == m2 && o == o2 && cp == cp2 && r == r2
  | .retryable m o cp r (some c), .retryable m2 o2 cp2 r2 (some d) => m == m2 && o == o2 && cp == cp2 && r == r2 && goErrEq c d
  | .timeout m o cp d0 none, .timeout m2 o2 cp2 d2 none => m == m2 && o == o2 && cp == cp2 && d0 == d2
  | .timeout m o cp d0 (some c), .timeout m2 o2 cp2 d2 (some d) => m == m2 && o == o2 && cp == cp2 && d0 == d2 && goErrEq c d
  | .validation m f cp v none, .validation m2 f2 cp2 v2 none => m == m2 && f == f2 && cp == cp2 && v == v2
  | .validation m f cp v (some c), .validation m2 f2 cp2 v2 (some d) => m == m2 && f == f2 && cp == cp2 && v == v2 && goErrEq c d
  | .processing m o i cp b none, .processing m2 o2 i2 cp2 b2 none => m == m2 && o == o2 && i == i2 && cp == cp2 && b == b2
  | .processing m o i cp b (some c), .processing m2 o2 i2 cp2 b2 (some d) => m == m2 && o == o2 && i == i2 && cp == cp2 && b == b2 && goErrEq c d
  | .network m o cp t none, .network m2 o2 cp2 t2 none => m == m2 && o == o2 && cp == cp2 && t == t2
  | .network m o cp t (some c), .network m2 o2 cp2 t2 (some d) => m == m2 && o == o2 && cp == cp2 && t == t2 && goErrEq c d
  | .circuitBreaker m o cp st k none, .circuitBreaker m2 o2 cp2 st2 k2 none => m == m2 && o == o2 && cp == cp2 && st == st2 && decide (k = k2)
  | .circuitBreaker m o cp st k (some c), .circuitBreaker m2 o2 cp2 st2 k2 (some d) => m == m2 && o == o2 && cp == cp2 && st == st2 && decide (k = k2) && goErrEq c d
  | .retryErr a b none _ o cp, .retryErr a2 b2 none _ o2 cp2 => a == a2 && b == b2 && o == o2 && cp == cp2
  | .retryErr a b (some c) _ o cp, .retryErr a2 b2 (some d) _ o2 cp2 => a == a2 && b == b2 && o == o2 && cp == cp2 && goErrEq c d
  | .foreign r m none, .foreign r2 m2 none => r == r2 && m == m2
  | .foreign r m (some c), .foreign r2 m2 (some d) => r == r2 && m == m2 && goErrEq c d
  | _, _ => false

/-- errors.Is(err, target): walk the chain comparing each link to the target
with Go interface equality. -/
def errIs (e target : GoError) : Bool := (chain e).any fun x => goErrEq x target

/-- Rendering of a time.Duration / numeric value inside an error message.
Go prints durations like "30s"; this rendering is abstracted to the decimal
count, which is harmless: the only classification rule inspecting message
text is the lower-cased "rate limit" substring fallback, and the fallback is
unreachable for the typed variants (they all expose IsRetryable, so the
capability check fires first). -/
def showDuration (d : Int) : String := toString d

/-- Rendering of ValidationError.Value (Go any) with %v; nil prints <nil>. -/
def showValue : Option Int → String
  | none => "<nil>"
  | some n => toString n

/-- The Error() method of each shape, translated from the fmt.Sprintf
formats in errors.go and resilience.go.  A wrapped error renders as
"msg: cause" (cockroachdb/errors); a foreign error renders its own text. -/
def errorMsg : GoError → String
  | .sentinel _ m => m
  | .basic m => m
  | .netError _ m => m
  | .wrapped m c => m ++ ": " ++ errorMsg c
  | .http s m cp e =>
    let msgStr := if cp = "" then m else cp ++ ": " ++ m
    match e with
    | some c => "HTTP " ++ toString s ++ ": " ++ msgStr ++ ": " ++ errorMsg c
    | none => "HTTP " ++ toString s ++ ": " ++ msgStr
  | .rateLimit m o cp r e =>
    let opStr := if cp = "" then o else cp ++ "/" ++ o
    match e with
    | some c => "rate limited in " ++ opStr ++ " (retry after " ++ showDuration r ++ "): " ++ m ++ ": " ++ errorMsg c
    | none => "rate limited in " ++ opStr ++ " (retry after " ++ showDuration r ++ "): " ++ m
  | .retryable m o cp r e =>
    let opStr := if cp = "" then o else cp ++ "/" ++ o
    match e with
    | some c => "retryable error in " ++ opStr ++ " (retry after " ++ showDuration r ++ "): " ++ m ++ ": " ++ errorMsg c
    | none => "retryable error in " ++ opStr ++ " (retry after " ++ showDuration r ++ "): " ++ m
  | .timeout m o cp d e =>
    let opStr := if cp = "" then o else cp ++ "/" ++ o
    match e with
    | some c => "timeout in " ++ opStr ++ " after " ++ showDuration d ++ ": " ++ m ++ ": " ++ errorMsg c
    | none => "timeout in " ++ opStr ++ " after " ++ showDuration d ++ ": " ++ m
  | .validation m f cp v e =>
    let baseMsg :=
      if cp = "" then "validation failed for field '" ++ f ++ "' (value: " ++ showValue v ++ ")"
      else "validation failed in " ++ cp ++ " for field '" ++ f ++ "' (value: " ++ showValue v ++ ")"
    if m = "" then
      match e with
      | some c => baseMsg ++ ": " ++ errorMsg c
      | none => baseMsg
    else
      match e with
      | some c => baseMsg ++ ": " ++ m ++ ": " ++ errorMsg c
      | none => baseMsg ++ ": " ++ m
  | .processing m o i cp b e =>
    let retryStr := if b then "retryable" else "not retryable"
    let opStr := if cp = "" then o else cp ++ "/" ++ o
    if i = "" then
      match e with
      | some c => m ++ ": " ++ opStr ++ " failed (" ++ retryStr ++ "): " ++ errorMsg c
      | none => m ++ ": " ++ opStr ++ " failed (" ++ retryStr ++ ")"
    else
      match e with
      | some c => m ++ ": " ++ opStr ++ " failed for item " ++ i ++ " (" ++ retryStr ++ "): " ++ errorMsg c
      | none => m ++ ": " ++ opStr ++ " failed for item " ++ i ++ " (" ++ retryStr ++ ")"
  | .network m o cp t e =>
    let transientStr := if t then "transient" else "persistent"
    let opStr := if cp = "" then o else cp ++ "/" ++ o
    match e with
    | some c => "network error in " ++ opStr ++ " (" ++ transientStr ++ "): " ++ m ++ ": " ++ errorMsg c
    | none => "network error in " ++ opStr ++ " (" ++ transientStr ++ "): " ++ m
  | .circuitBreaker m o cp st _ e =>
    let opStr := if cp = "" then o else cp ++ "/" ++ o
    match e with
    | some c => "circuit breaker " ++ st ++ " for " ++ opStr ++ ": " ++ m ++ ": " ++ errorMsg c
    | none => "circuit breaker " ++ st ++ " for " ++ opStr ++ ": " ++ m
  | .retryErr a b l _ o cp =>
    let opStr := if cp = "" then o else cp ++ "/" ++ o
    let base := "retry exhausted after " ++ toString a ++ "/" ++ toString b ++ " attempts"
    let base2 := if opStr = "" then base else base ++ " for " ++ opStr
    match l with
    | some c => base2 ++ ": " ++ errorMsg c
    | none => base2
  | .foreign _ m _ => m

/-- strings.ToLower (written over the character list so it computes by
kernel reduction). -/
def strToLower (s : String) : String := String.mk (s.toList.map Char.toLower)

/-- strings.Contains: does s contain pat as a substring. -/
def strContainsSub (s pat : String) : Bool :=
  (List.range (s.toList.length + 1)).any fun i => pat.toList.isPrefixOf (s.toList.drop i)

/-- Is this node a *HTTPError (the target of errors.As with an *HTTPError)? -/
def isHTTPNode : GoError → Bool
  | .http _ _ _ _ => true
  | _ => false

/-- Is this node a *TimeoutError? -/
def isTimeoutNode : GoError → Bool
  | .timeout _ _ _ _ _ => true
  | _ => false

/-- Is this node a *ValidationError? -/
def isValidationNode : GoError → Bool
  | .validation _ _ _ _ _ => true
  | _ => false

/-- Is this node a *NetworkError? -/
def isNetworkNode : GoError → Bool
  | .network _ _ _ _ _ => true
  | _ => false

/-- Does this node implement Go's net.Error interface? -/
def isNetErrorNode : GoError → Bool
  | .netError _ _ => true
  | _ => false

/-- HTTPError.IsRetryable (errors.go): StatusCode >= 500 || StatusCode == 429. -/
def httpNodeRetryable : GoError → Bool
  | .http s _ _ _ => decide (500 ≤ s) || decide (s = 429)
  | _ => false

/-- The 4xx-but-not-429 test IsPermanentError applies to an extracted
HTTPError: StatusCode >= 400 && StatusCode < 500 && StatusCode != 429. -/
def httpNodePermanent : GoError → Bool
  | .http s _ _ _ => decide (400 ≤ s) && decide (s < 500) && !(decide (s = 429))
  | _ => false

/-- TimeoutError.IsRetryable (errors.go): always true. -/
def timeoutNodeRetryable : GoError → Bool
  | .timeout _ _ _ _ _ => true
  | _ => false

/-- Steps 3-5 of IsRetryable (retryable.go): the sentinel membership check,
the HTTPError status check, and the defensive lower-cased "rate limit"
substring fallback, ending in the safe default false. -/
def retryFallback (e : GoError) : Bool :=
  if errIs e ErrRateLimited || errIs e ErrNetworkTimeout || errIs e ErrServerError ||
      errIs e ErrConnectionError || errIs e ErrDeadlock || errIs e ErrCircuitOpen then true
  else
    match (chain e).find? isHTTPNode with
    | some h => httpNodeRetryable h
    | none => strContainsSub (strToLower (errorMsg e)) "rate limit"

/-- errors.As(err, &r) for the Retryable interface, fused with the call
r.IsRetryable(): walk the chain outward-in to the first node implementing
IsRetryable() and return its self-reported verdict (none when no node in the
chain implements the interface).  Each per-node verdict is the body of that
type's IsRetryable method.  ProcessingError.IsRetryable (errors.go) consults
the package-level IsRetryable on its non-nil cause; that call is inlined here
(context check, capability check, then fallback — literally the body of
IsRetryable below) to keep the recursion structural; the lemma
asRetryableVerdict_processing re-states this case as
some (flag || IsRetryable (some c)). -/
def asRetryableVerdict : GoError → Option Bool
  | .sentinel _ _ => none
  | .basic _ => none
  | .netError _ _ => none
  | .wrapped _ c => asRetryableVerdict c
  | .http s _ _ _ => some (decide (500 ≤ s) || decide (s = 429))
  | .rateLimit _ _ _ _ _ => some true
  | .retryable _ _ _ _ _ => some true
  | .timeout _ _ _ _ _ => some true
  | .validation _ _ _ _ _ => some false
  | .processing _ _ _ _ flag none => some flag
  | .processing _ _ _ _ flag (some c) =>
    some (flag ||
      (if errIs c ctxDeadlineExceeded || errIs c ctxCanceled then false
        else
          match asRetryableVerdict c with
          | some v => v
          | none => retryFallback c))
  | .network _ _ _ t _ => some t
  | .circuitBreaker _ _ _ _ _ _ => some false
  | .retryErr _ _ _ _ _ _ => some false
  | .foreign r _ _ => some r

/-- IsRetryable (retryable.go): nil check, then context-abandonment check,
then the generic Retryable capability check, then sentinel / HTTP / text
fallbacks. -/
def IsRetryable : Option GoError → Bool
  | none => false
  | some e =>
    if errIs e ctxDeadlineExceeded || errIs e ctxCanceled then false
    else
      match asRetryableVerdict e with
      | some v => v
      | none => retryFallback e

/-- IsContextError (errors.go): Is(err, DeadlineExceeded) || Is(err, Canceled). -/
def IsContextError : Option GoError → Bool
  | none => false
  | some e => errIs e ctxDeadlineExceeded || errIs e ctxCanceled

/-- IsValidation (errors.go): errors.As with a *ValidationError target. -/
def IsValidation : Option GoError → Bool
  | none => false
  | some e => (chain e).any isValidationNode

/-- IsNetworkError (errors.go): errors.As with a *NetworkError target, else
errors.As with a net.Error target. -/
def IsNetworkError : Option GoError → Bool
  | none => false
  | some e => (chain e).any isNetworkNode || (chain e).any isNetErrorNode

/-- IsHTTPError (errors.go): errors.As with an *HTTPError target, returning
the first (outermost) HTTPError in the chain when found. -/
def IsHTTPError : Option GoError → Option GoError
  | none => none
  | some e => (chain e).find? isHTTPNode

/-- IsRetryableTimeout (retryable.go): false on nil and on chains containing
context.DeadlineExceeded (only that condition); otherwise the self-reported
verdict of the first TimeoutError in the chain; otherwise true only for the
ErrNetworkTimeout sentinel. -/
def IsRetryableTimeout : Option GoError → Bool
  | none => false
  | some e =>
    if errIs e ctxDeadlineExceeded then false
    else
      match (chain e).find? isTimeoutNode with
      | some t => timeoutNodeRetryable t
      | none => errIs e ErrNetworkTimeout

/-- IsTransientError (retryable.go): false on nil or context errors; true for
network-shaped errors and for the rate-limited / server-error /
connection-error / deadlock sentinels; else false. -/
def IsTransientError : Option GoError → Bool
  | none => false
  | some e =>
    if IsContextError (some e) then false
    else if IsNetworkError (some e) then true
    else if errIs e ErrRateLimited then true
    else if errIs e ErrServerError then true
    else if errIs e ErrConnectionError then true
    else if errIs e ErrDeadlock then true
    else false

/-- IsPermanentError (retryable.go): true for validation errors, context
errors, the circuit-open sentinel, and 4xx-except-429 HTTP errors. -/
def IsPermanentError : Option GoError → Bool
  | none => false
  | some e =>
    if IsValidation (some e) then true
    else if IsContextError (some e) then true
    else if errIs e ErrCircuitOpen then true
    else
      match (chain e).find? isHTTPNode with
      | some h => httpNodePermanent h
      | none => false

/-- The per-node Retryable capability: does this concrete shape implement
IsRetryable()?  All nine library variants do, as does a foreign type that
opted in; sentinels, plain errors, wrap nodes and net.Error values do not. -/
def nodeHasRetryableCap : GoError → Bool
  | .sentinel _ _ => false
  | .basic _ => false
  | .netError _ _ => false
  | .wrapped _ _ => false
  | _ => true

/-- The self-reported IsRetryable() verdict of a single node (the body of the
variant's own method, errors.go / resilience.go); false on shapes without the
capability.  ProcessingError's method delegates to the package-level
IsRetryable on its non-nil cause. -/
def nodeSelfVerdict : GoError → Bool
  | .http s _ _ _ => decide (500 ≤ s) || decide (s = 429)
  | .rateLimit _ _ _ _ _ => true
  | .retryable _ _ _ _ _ => true
  | .timeout _ _ _ _ _ => true
  | .validation _ _ _ _ _ => false
  | .processing _ _ _ _ flag c =>
    flag ||
      (match c with
        | some cause => IsRetryable (some cause)
        | none => false)
  | .network _ _ _ t _ => t
  | .circuitBreaker _ _ _ _ _ _ => false
  | .retryErr _ _ _ _ _ _ => false
  | .foreign r _ _ => r
  | _ => false

/-- A functional option (options.go `Option func(any)`); it mutates the
under-construction error, modelled as a function on the value.  (The Go name
`Option` collides with Lean's `Option`.) -/
def ErrOpt : Type := GoError → GoError

/-- Apply the options in order, as the constructors' `for _, opt := range
opts` loop does. -/
def applyOpts (opts : List ErrOpt) (e : GoError) : GoError :=
  opts.foldl (fun acc opt => opt acc) e

/-- WithCause (options.go): sets the Err field.  The type switch covers
HTTPError, ValidationError, TimeoutError, RateLimitError, ProcessingError,
NetworkError and CircuitBreakerError; every other shape — including
RetryableError and RetryError — is silently left unchanged. -/
def WithCause (cause : GoError) : ErrOpt := fun e =>
  match e with
  | .http s m cp _ => .http s m cp (some cause)
  | .validation m f cp v _ => .validation m f cp v (some cause)
  | .timeout m o cp d _ => .timeout m o cp d (some cause)
  | .rateLimit m o cp r _ => .rateLimit m o cp r (some cause)
  | .processing m o i cp b _ => .processing m o i cp b (some cause)
  | .network m o cp t _ => .network m o cp t (some cause)
  | .circuitBreaker m o cp st k _ => .circuitBreaker m o cp st k (some cause)
  | other => other

/-- WithRetryable (options.go): ProcessingError only. -/
def WithRetryable (b : Bool) : ErrOpt := fun e =>
  match e with
  | .processing m o i cp _ c => .processing m o i cp b c
  | other => other

/-- WithItemID (options.go): ProcessingError only. -/
def WithItemID (itemID : String) : ErrOpt := fun e =>
  match e with
  | .processing m o _ cp b c => .processing m o itemID cp b c
  | other => other

/-- WithValue (options.go): ValidationError only. -/
def WithValue (v : Int) : ErrOpt := fun e =>
  match e with
  | .validation m f cp _ c => .validation m f cp (some v) c
  | other => other

/-- WithOperation (options.go): TimeoutError, RateLimitError,
ProcessingError, NetworkError and CircuitBreakerError only. -/
def WithOperation (o : String) : ErrOpt := fun e =>
  match e with
  | .timeout m _ cp d c => .timeout m o cp d c
  | .rateLimit m _ cp r c => .rateLimit m o cp r c
  | .processing m _ i cp b c => .processing m o i cp b c
  | .network m _ cp t c => .network m o cp t c
  | .circuitBreaker m _ cp st k c => .circuitBreaker m o cp st k c
  | other => other

/-- WithMessage (options.go): HTTPError, ValidationError, TimeoutError,
RateLimitError, ProcessingError, NetworkError and CircuitBreakerError. -/
def WithMessage (msg : String) : ErrOpt := fun e =>
  match e with
  | .http s _ cp c => .http s msg cp c
  | .validation _ f cp v c => .validation msg f cp v c
  | .timeout _ o cp d c => .timeout msg o cp d c
  | .rateLimit _ o cp r c => .rateLimit msg o cp r c
  | .processing _ o i cp b c => .processing msg o i cp b c
  | .network _ o cp t c => .network msg o cp t c
  | .circuitBreaker _ o cp st k c => .circuitBreaker msg o cp st k c
  | other => other

/-- WithStatusCode (options.go): HTTPError only. -/
def WithStatusCode (s : Int) : ErrOpt := fun e =>
  match e with
  | .http _ m cp c => .http s m cp c
  | other => other

/-- WithField (options.go): ValidationError only. -/
def WithField (f : String) : ErrOpt := fun e =>
  match e with
  | .validation m _ cp v c => .validation m f cp v c
  | other => other

/-- WithTransient (options.go): NetworkError only. -/
def WithTransient (t : Bool) : ErrOpt := fun e =>
  match e with
  | .network m o cp _ c => .network m o cp t c
  | other => other

/-- WithState (options.go): CircuitBreakerError only. -/
def WithState (st : String) : ErrOpt := fun e =>
  match e with
  | .circuitBreaker m o cp _ k c => .circuitBreaker m o cp st k c
  | other => other

/-- Modelled from the spec: the set-component adjustment (WithComponent) is
exercised by the repository's tests but its definition is not among the
provided source files.  Per the spec it targets every variant with a
component field — all nine variants — and is silently ignored elsewhere. -/
def WithComponent (cp : String) : ErrOpt := fun e =>
  match e with
  | .http s m _ c => .http s m cp c
  | .rateLimit m o _ r c => .rateLimit m o cp r c
  | .retryable m o _ r c => .retryable m o cp r c
  | .timeout m o _ d c => .timeout m o cp d c
  | .validation m f _ v c => .validation m f cp v c
  | .processing m o i _ b c => .processing m o i cp b c
  | .network m o _ t c => .network m o cp t c
  | .circuitBreaker m o _ st k c => .circuitBreaker m o cp st k c
  | .retryErr a b l al o _ => .retryErr a b l al o cp
  | other => other

/-- Modelled from the spec: the set-counts adjustment (WithCounts) is
exercised by the repository's tests but its definition is not among the
provided source files.  Per the spec it targets CircuitBreakerError only
(carrying the circuit breaker's observability counters) and is silently
ignored elsewhere. -/
def WithCounts (k : CircuitCounts) : ErrOpt := fun e =>
  match e with
  | .circuitBreaker m o cp st _ c => .circuitBreaker m o cp st k c
  | other => other

/-- NewHTTPError (errors.go): positional status code, message and cause;
Component is left at its zero value. -/
def NewHTTPError (statusCode : Int) (message : String) (cause : Option GoError) : GoError :=
  .http statusCode message "" cause

/-- NewRateLimitError (errors.go). -/
def NewRateLimitError (message operation : String) (retryAfter : Int) (opts : List ErrOpt) : GoError :=
  applyOpts opts (.rateLimit message operation "" retryAfter none)

/-- NewRetryableError (errors.go). -/
def NewRetryableError (message operation : String) (retryAfter : Int) (opts : List ErrOpt) : GoError :=
  applyOpts opts (.retryable message operation "" retryAfter none)

/-- NewTimeoutError (errors.go). -/
def NewTimeoutError (message operation : String) (duration : Int) (opts : List ErrOpt) : GoError :=
  applyOpts opts (.timeout message operation "" duration none)

/-- NewValidationError (errors.go); Value and Err start at their zero
values. -/
def NewValidationError (message field : String) (opts : List ErrOpt) : GoError :=
  applyOpts opts (.validation message field "" none none)

/-- NewProcessingError (errors.go); Retryable starts false. -/
def NewProcessingError (message operation : String) (opts : List ErrOpt) : GoError :=
  applyOpts opts (.processing message operation "" "" false none)

/-- NewRetryableProcessingError (errors.go): prepends WithRetryable(true). -/
def NewRetryableProcessingError (message operation : String) (opts : List ErrOpt) : GoError :=
  NewProcessingError message operation (WithRetryable true :: opts)

/-- NewNetworkError (errors.go): IsTransient defaults to true. -/
def NewNetworkError (message operation : String) (opts : List ErrOpt) : GoError :=
  applyOpts opts (.network message operation "" true none)

/-- NewCircuitBreakerError (errors.go); the counts field starts at the zero
value. -/
def NewCircuitBreakerError (message operation state : String) (opts : List ErrOpt) : GoError :=
  applyOpts opts (.circuitBreaker message operation "" state zeroCircuitCounts none)

/-- NewRetryError (resilience.go). -/
def NewRetryError (attempts maxAttempts : Int) (lastError : Option GoError) (allErrors : List GoError) (opts : List ErrOpt) : GoError :=
  applyOpts opts (.retryErr attempts maxAttempts lastError allErrors "" "")

/-- Wrap (re-exported cockroachdb/errors.Wrap): annotate with a message,
preserving the chain. -/
def Wrap (err : GoError) (msg : String) : GoError := .wrapped msg err

/-- Iterated generic wrapping: wrapMany [m1, m2, ...] e = Wrap-node m1 around
Wrap-node m2 around ... around e. -/
def wrapMany (msgs : List String) (e : GoError) : GoError :=
  msgs.foldr (fun m acc => .wrapped m acc) e

/-- Identity comparison of two sentinels: ids and messages must agree. -/
@[simp] theorem goErrEq_sentinel_sentinel (i j : Nat) (m n : String) :
    goErrEq (.sentinel i m) (.sentinel j n) = (i == j && m == n) := rfl

/-- A plain error is never identical to a sentinel. -/
@[simp] theorem goErrEq_basic_sentinel (m : String) (j : Nat) (n : String) :
    goErrEq (.basic m) (.sentinel j n) = false := rfl

/-- A net.Error value is never identical to a sentinel. -/
@[simp] theorem goErrEq_netError_sentinel (t : Bool) (m : String) (j : Nat) (n : String) :
    goErrEq (.netError t m) (.sentinel j n) = false := rfl

/-- A wrap node is never identical to a sentinel. -/
@[simp] theorem goErrEq_wrapped_sentinel (m : String) (c : GoError) (j : Nat) (n : String) :
    goErrEq (.wrapped m c) (.sentinel j n) = false := rfl

/-- An HTTPError is never identical to a sentinel. -/
@[simp] theorem goErrEq_http_sentinel (s : Int) (m cp : String) (c : Option GoError) (j : Nat) (n : String) :
    goErrEq (.http s m cp c) (.sentinel j n) = false := by cases c <;> rfl

/-- A RateLimitError is never identical to a sentinel. -/
@[simp] theorem goErrEq_rateLimit_sentinel (m o cp : String) (r : Int) (c : Option GoError) (j : Nat) (n : String) :
    goErrEq (.rateLimit m o cp r c) (.sentinel j n) = false := by cases c <;> rfl

/-- A RetryableError is never identical to a sentinel. -/
@[simp] theorem goErrEq_retryable_sentinel (m o cp : String) (r : Int) (c : Option GoError) (j : Nat) (n : String) :
    goErrEq (.retryable m o cp r c) (.sentinel j n) = false := by cases c <;> rfl

/-- A TimeoutError is never identical to a sentinel. -/
@[simp] theorem goErrEq_timeout_sentinel (m o cp : String) (d : Int) (c : Option GoError) (j : Nat) (n : String) :
    goErrEq (.timeout m o cp d c) (.sentinel j n) = false := by cases c <;> rfl

/-- A ValidationError is never identical to a sentinel. -/
@[simp] theorem goErrEq_validation_sentinel (m f cp : String) (v : Option Int) (c : Option GoError) (j : Nat) (n : String) :
    goErrEq (.validation m f cp v c) (.sentinel j n) = false := by cases c <;> rfl

/-- A ProcessingError is never identical to a sentinel. -/
@[simp] theorem goErrEq_processing_sentinel (m o i cp : String) (b : Bool) (c : Option GoError) (j : Nat) (n : String) :
    goErrEq (.processing m o i cp b c) (.sentinel j n) = false := by cases c <;> rfl

/-- A NetworkError is never identical to a sentinel. -/
@[simp] theorem goErrEq_network_sentinel (m o cp : String) (t : Bool) (c : Option GoError) (j : Nat) (n : String) :
    goErrEq (.network m o cp t c) (.sentinel j n) = false := by cases c <;> rfl

/-- A CircuitBreakerError is never identical to a sentinel. -/
@[simp] theorem goErrEq_circuitBreaker_sentinel (m o cp st : String) (k : CircuitCounts) (c : Option GoError) (j : Nat) (n : String) :
    goErrEq (.circuitBreaker m o cp st k c) (.sentinel j n) = false := by cases c <;> rfl

/-- A RetryError is never identical to a sentinel. -/
@[simp] theorem goErrEq_retryErr_sentinel (a b : Int) (l : Option GoError) (al : List GoError) (o cp : String) (j : Nat) (n : String) :
    goErrEq (.retryErr a b l al o cp) (.sentinel j n) = false := by cases l <;> rfl

/-- A foreign error is never identical to a sentinel. -/
@[simp] theorem goErrEq_foreign_sentinel (r : Bool) (m : String) (c : Option GoError) (j : Nat) (n : String) :
    goErrEq (.foreign r m c) (.sentinel j n) = false := by cases c <;> rfl

/-- Is-membership through a single wrap layer. -/
theorem errIs_wrapped (m : String) (c t : GoError) :
    errIs (.wrapped m c) t = (goErrEq (.wrapped m c) t || errIs c t) := by
  simp [errIs, chain, chainRest]

/-- Unfolding one layer of iterated wrapping. -/
theorem wrapMany_cons (m : String) (ms : List String) (e : GoError) :
    wrapMany (m :: ms) e = .wrapped m (wrapMany ms e) := rfl

/-- Generic wrap layers are transparent to sentinel Is-checks. -/
theorem errIs_wrapMany_sentinel (msgs : List String) (b : GoError) (j : Nat) (n : String) :
    errIs (wrapMany msgs b) (.sentinel j n) = errIs b (.sentinel j n) := by
  induction msgs with
  | nil => rfl
  | cons m ms ih => rw [wrapMany_cons, errIs_wrapped, ih, goErrEq_wrapped_sentinel, Bool.false_or]

/-- Generic wrap layers are transparent to the Retryable capability lookup
(wrap nodes do not implement IsRetryable). -/
theorem asRetryableVerdict_wrapMany (msgs : List String) (b : GoError) :
    asRetryableVerdict (wrapMany msgs b) = asRetryableVerdict b := by
  induction msgs with
  | nil => rfl
  | cons m ms ih => rw [wrapMany_cons]; simpa [asRetryableVerdict] using ih

/-- Any chain predicate that is false on wrap nodes looks through generic
wrap layers. -/
theorem chain_any_wrapMany (p : GoError → Bool) (hp : ∀ m c, p (.wrapped m c) = false)
    (msgs : List String) (b : GoError) :
    (chain (wrapMany msgs b)).any p = (chain b).any p := by
  induction msgs with
  | nil => rfl
  | cons m ms ih =>
    rw [wrapMany_cons]
    simp [chain, chainRest, hp] at ih ⊢
    simpa [chain] using ih

/-- The ProcessingError case of the capability lookup, restated through the
package-level IsRetryable it delegates to. -/
theorem asRetryableVerdict_processing (m o i cp : String) (flag : Bool) (c : GoError) :
    asRetryableVerdict (.processing m o i cp flag (some c)) = some (flag || IsRetryable (some c)) := rfl

/-- Abandonment conditions in the chain force not-retryable, not-transient
and permanent, for any error whatsoever. -/
theorem contextOverrides (e : GoError)
    (h : (errIs e ctxDeadlineExceeded || errIs e ctxCanceled) = true) :
    IsRetryable (some e) = false ∧ IsTransientError (some e) = false ∧
      IsPermanentError (some e) = true := by
  refine ⟨?_, ?_, ?_⟩
  · simp [IsRetryable, h]
  · simp [IsTransientError, IsContextError, h]
  · simp [IsPermanentError, IsContextError, h]

/-- C1: for every error whose chain contains the deadline-exceeded or
canceled condition, at any wrap depth, IsRetryable returns false and
IsPermanentError returns true — the context-abandonment check short-circuits
before the self-reporting capability check, even when the outermost type
self-reports retryable true. -/
theorem C1_context_overrides_classification (e : GoError)
    (h : (errIs e ctxDeadlineExceeded || errIs e ctxCanceled) = true) :
    IsRetryable (some e) = false ∧ IsPermanentError (some e) = true :=
  ⟨(contextOverrides e h).1, (contextOverrides e h).2.2⟩

/-- Witness for C1: a TimeoutError (whose own type self-reports retryable
true) wrapping context.DeadlineExceeded is classified not retryable and
permanent. -/
theorem C1_witness :
    (errIs (NewTimeoutError "op timed out" "Fetch" 30 [WithCause ctxDeadlineExceeded]) ctxDeadlineExceeded ||
        errIs (NewTimeoutError "op timed out" "Fetch" 30 [WithCause ctxDeadlineExceeded]) ctxCanceled) = true ∧
      IsRetryable (some (NewTimeoutError "op timed out" "Fetch" 30 [WithCause ctxDeadlineExceeded])) = false ∧
      IsPermanentError (some (NewTimeoutError "op timed out" "Fetch" 30 [WithCause ctxDeadlineExceeded])) = true :=
  ⟨by decide,
    (C1_context_overrides_classification _ (by decide)).1,
    (C1_context_overrides_classification _ (by decide)).2⟩

/-- C2 counterexample: IsRetryableTimeout checks only the deadline-exceeded
condition, so a TimeoutError whose chain contains context.Canceled — an
abandonment condition — is still reported as a retryable timeout, refuting
the claim that every classification entry point treats abandonment as
overriding. -/
theorem C2_counterexample :
    errIs (NewTimeoutError "m" "op" 30 [WithCause ctxCanceled]) ctxCanceled = true ∧
      IsRetryableTimeout (some (NewTimeoutError "m" "op" 30 [WithCause ctxCanceled])) = true := by
  decide

/-- C2 (amended): abandonment conditions force IsRetryable false,
IsTransientError false and IsPermanentError true at any wrap depth; but
IsRetryableTimeout re-verifies only the deadline-exceeded condition (a chain
containing just context.Canceled is not overridden there). -/
theorem C2_amended_every_entry_point (e : GoError)
    (h : (errIs e ctxDeadlineExceeded || errIs e ctxCanceled) = true) :
    IsRetryable (some e) = false ∧ IsTransientError (some e) = false ∧
      IsPermanentError (some e) = true ∧
      (errIs e ctxDeadlineExceeded = true → IsRetryableTimeout (some e) = false) := by
  refine ⟨(contextOverrides e h).1, (contextOverrides e h).2.1, (contextOverrides e h).2.2, ?_⟩
  intro hDE
  simp [IsRetryableTimeout, hDE]

/-- Witness for C2: a generic wrap around context.DeadlineExceeded. -/
theorem C2_witness :
    (errIs (Wrap ctxDeadlineExceeded "operation failed") ctxDeadlineExceeded ||
        errIs (Wrap ctxDeadlineExceeded "operation failed") ctxCanceled) = true ∧
      IsRetryable (some (Wrap ctxDeadlineExceeded "operation failed")) = false ∧
      IsTransientError (some (Wrap ctxDeadlineExceeded "operation failed")) = false ∧
      IsPermanentError (some (Wrap ctxDeadlineExceeded "operation failed")) = true ∧
      IsRetryableTimeout (some (Wrap ctxDeadlineExceeded "operation failed")) = false :=
  ⟨by decide,
    (C2_amended_every_entry_point _ (by decide)).1,
    (C2_amended_every_entry_point _ (by decide)).2.1,
    (C2_amended_every_entry_point _ (by decide)).2.2.1,
    (C2_amended_every_entry_point _ (by decide)).2.2.2 (by decide)⟩

/-- C3 counterexample: a TimeoutError whose cause is a ValidationError.  The
innermost (deepest) capability-bearing error is the ValidationError, whose
self-reported verdict is false, yet IsRetryable returns true — the verdict of
the outermost capability-bearing error — refuting the innermost-wins claim. -/
theorem C3_counterexample :
    asRetryableVerdict (GoError.validation "invalid" "field" "" none none) = some false ∧
      IsRetryable (some (GoError.timeout "m" "op" "" 30
        (some (GoError.validation "invalid" "field" "" none none)))) = true := by
  decide

/-- errors.As with a Retryable target stops at the first capability-bearing
node while walking the chain from the top, so the fused capability lookup
equals the self-reported verdict of the first chain node implementing
IsRetryable (and is none when no such node exists). -/
theorem asRetryableVerdict_eq_firstCap :
    (e : GoError) →
      asRetryableVerdict e = ((chain e).find? nodeHasRetryableCap).map nodeSelfVerdict
  | .sentinel _ _ => rfl
  | .basic _ => rfl
  | .netError _ _ => rfl
  | .wrapped _ c => asRetryableVerdict_eq_firstCap c
  | .http _ _ _ _ => rfl
  | .rateLimit _ _ _ _ _ => rfl
  | .retryable _ _ _ _ _ => rfl
  | .timeout _ _ _ _ _ => rfl
  | .validation _ _ _ _ _ => rfl
  | .processing m o i cp flag none => by
    simp [asRetryableVerdict, chain, chainRest, List.find?, nodeHasRetryableCap, nodeSelfVerdict]
  | .processing _ _ _ _ _ (some _) => rfl
  | .network _ _ _ _ _ => rfl
  | .circuitBreaker _ _ _ _ _ _ => rfl
  | .retryErr _ _ _ _ _ _ => rfl
  | .foreign _ _ _ => rfl

/-- C3 (amended): when no abandonment condition is present, IsRetryable
returns the self-reported verdict of the OUTERMOST error exposing the
self-reports-retryability capability — the first capability-bearing node
encountered while unwrapping from the top of the chain, at any depth under
generic wrap layers. -/
theorem C3_outermost_capability_wins (e r : GoError)
    (h1 : (chain e).find? nodeHasRetryableCap = some r)
    (h2 : (errIs e ctxDeadlineExceeded || errIs e ctxCanceled) = false) :
    IsRetryable (some e) = nodeSelfVerdict r := by
  have hA := asRetryableVerdict_eq_firstCap e
  rw [h1] at hA
  simp [IsRetryable, h2, hA]

/-- Witness for C3: a generic wrap layer over the TimeoutError whose cause is
a ValidationError; the first capability holder in the chain is the
TimeoutError, so the verdict is its self-report (true), not the inner
ValidationError's false. -/
theorem C3_witness :
    (chain (GoError.wrapped "request failed" (GoError.timeout "m" "op" "" 30
          (some (GoError.validation "invalid" "field" "" none none))))).find? nodeHasRetryableCap =
        some (GoError.timeout "m" "op" "" 30
          (some (GoError.validation "invalid" "field" "" none none))) ∧
      (errIs (GoError.wrapped "request failed" (GoError.timeout "m" "op" "" 30
            (some (GoError.validation "invalid" "field" "" none none)))) ctxDeadlineExceeded ||
          errIs (GoError.wrapped "request failed" (GoError.timeout "m" "op" "" 30
            (some (GoError.validation "invalid" "field" "" none none)))) ctxCanceled) = false ∧
      IsRetryable (some (GoError.wrapped "request failed" (GoError.timeout "m" "op" "" 30
          (some (GoError.validation "invalid" "field" "" none none))))) =
        nodeSelfVerdict (GoError.timeout "m" "op" "" 30
          (some (GoError.validation "invalid" "field" "" none none))) :=
  ⟨rfl, by decide, C3_outermost_capability_wins _ _ rfl (by decide)⟩

/-- C4 counterexample: a NetworkError constructed with the transient flag
explicitly disabled is not retryable, but IsTransientError still returns
true — the network-shape check in IsTransientError does not consult the
flag — refuting the claim that both become false. -/
theorem C4_counterexample :
    IsRetryable (some (NewNetworkError "DNS lookup failed" "Connect" [WithTransient false])) = false ∧
      IsTransientError (some (NewNetworkError "DNS lookup failed" "Connect" [WithTransient false])) = true := by
  decide

/-- C4 (amended): a default NetworkError is retryable and transient; with the
transient flag disabled, IsRetryable returns false but IsTransientError still
returns true, because IsTransientError classifies every network-shaped error
as transient regardless of the flag. -/
theorem C4_network_flag_classification (m o : String) :
    IsRetryable (some (NewNetworkError m o [])) = true ∧
      IsTransientError (some (NewNetworkError m o [])) = true ∧
      IsRetryable (some (NewNetworkError m o [WithTransient false])) = false ∧
      IsTransientError (some (NewNetworkError m o [WithTransient false])) = true := by
  have h1 : NewNetworkError m o [] = .network m o "" true none := rfl
  have h2 : NewNetworkError m o [WithTransient false] = .network m o "" false none := rfl
  refine ⟨?_, ?_, ?_, ?_⟩ <;>
    simp [h1, h2, IsRetryable, IsTransientError, IsContextError, IsNetworkError,
      asRetryableVerdict, errIs, chain, chainRest, isNetworkNode, isNetErrorNode,
      ctxDeadlineExceeded, ctxCanceled]

/-- C5: for every HTTPError without an abandonment condition in its chain,
a status of at least 500 or exactly 429 classifies retryable; a 4xx status
other than 429 classifies not retryable and permanent. -/
theorem C5_http_status_classification (s : Int) (m cp : String) (c : Option GoError)
    (h : (errIs (GoError.http s m cp c) ctxDeadlineExceeded ||
        errIs (GoError.http s m cp c) ctxCanceled) = false) :
    (500 ≤ s ∨ s = 429 → IsRetryable (some (GoError.http s m cp c)) = true) ∧
      (400 ≤ s ∧ s < 500 ∧ s ≠ 429 →
        IsRetryable (some (GoError.http s m cp c)) = false ∧
          IsPermanentError (some (GoError.http s m cp c)) = true) := by
  have hR : IsRetryable (some (GoError.http s m cp c)) =
      (decide (500 ≤ s) || decide (s = 429)) := by
    simp [IsRetryable, h, asRetryableVerdict]
  constructor
  · intro hs
    rw [hR]
    rcases hs with hs | hs <;> simp [hs]
  · rintro ⟨h4, h5, h9⟩
    constructor
    · rw [hR]
      simp only [Bool.or_eq_false_iff, decide_eq_false_iff_not]
      omega
    · cases hval : IsValidation (some (GoError.http s m cp c)) with
      | true => simp [IsPermanentError, hval]
      | false =>
        have hcf : IsContextError (some (GoError.http s m cp c)) = false := by
          simpa [IsContextError] using h
        cases hco : errIs (GoError.http s m cp c) ErrCircuitOpen with
        | true => simp [IsPermanentError, hval, hcf, hco]
        | false =>
          have hfind : (chain (GoError.http s m cp c)).find? isHTTPNode =
              some (GoError.http s m cp c) := by
            simp [chain, List.find?_cons, isHTTPNode]
          have hP : IsPermanentError (some (GoError.http s m cp c)) =
              httpNodePermanent (GoError.http s m cp c) := by
            simp [IsPermanentError, hval, hcf, hco, hfind]
          rw [hP]
          simp only [httpNodePermanent, Bool.and_eq_true, decide_eq_true_eq,
            Bool.not_eq_true', decide_eq_false_iff_not]
          omega

/-- Witness for C5: HTTP 404 is not retryable and permanent; HTTP 503 is
retryable. -/
theorem C5_witness :
    (errIs (GoError.http 404 "Not Found" "" none) ctxDeadlineExceeded ||
        errIs (GoError.http 404 "Not Found" "" none) ctxCanceled) = false ∧
      IsRetryable (some (GoError.http 404 "Not Found" "" none)) = false ∧
      IsPermanentError (some (GoError.http 404 "Not Found" "" none)) = true ∧
      IsRetryable (some (GoError.http 503 "Service Unavailable" "" none)) = true :=
  ⟨by decide,
    ((C5_http_status_classification 404 "Not Found" "" none (by decide)).2
      ⟨by decide, by decide, by decide⟩).1,
    ((C5_http_status_classification 404 "Not Found" "" none (by decide)).2
      ⟨by decide, by decide, by decide⟩).2,
    (C5_http_status_classification 503 "Service Unavailable" "" none (by decide)).1
      (Or.inl (by decide))⟩

/-- C6: ProcessingError retryability is derived at call time: the explicit
flag, or the full engine's verdict on the wrapped cause.  Without flag and
cause it is not retryable; with a RateLimitError cause it is retryable. -/
theorem C6_processing_derived_retryability (m o i cp m2 o2 : String) (ra : Int)
    (flag : Bool) (c : GoError)
    (h : (errIs (GoError.processing m o i cp flag (some c)) ctxDeadlineExceeded ||
        errIs (GoError.processing m o i cp flag (some c)) ctxCanceled) = false) :
    IsRetryable (some (NewProcessingError m o [])) = false ∧
      IsRetryable (some (NewProcessingError m o [WithCause (NewRateLimitError m2 o2 ra [])])) = true ∧
      IsRetryable (some (GoError.processing m o i cp flag (some c))) = (flag || IsRetryable (some c)) := by
  refine ⟨?_, ?_, ?_⟩
  · simp [NewProcessingError, applyOpts, IsRetryable, asRetryableVerdict, errIs, chain,
      chainRest, ctxDeadlineExceeded, ctxCanceled]
  · simp [NewProcessingError, NewRateLimitError, applyOpts, WithCause, IsRetryable,
      asRetryableVerdict, errIs, chain, chainRest, ctxDeadlineExceeded, ctxCanceled]
  · have hA := asRetryableVerdict_processing m o i cp flag c
    simp [IsRetryable, h, hA]

/-- Witness for C6: concrete instances, using ErrRateLimited as the wrapped
cause for the derived-at-call-time equation. -/
theorem C6_witness :
    IsRetryable (some (NewProcessingError "a" "b" [])) = false ∧
      IsRetryable (some (NewProcessingError "a" "b" [WithCause (NewRateLimitError "rl" "op" 60 [])])) = true ∧
      IsRetryable (some (GoError.processing "a" "b" "" "" false (some ErrRateLimited))) =
        (false || IsRetryable (some ErrRateLimited)) :=
  ⟨(C6_processing_derived_retryability "a" "b" "" "" "rl" "op" 60 false ErrRateLimited (by decide)).1,
    (C6_processing_derived_retryability "a" "b" "" "" "rl" "op" 60 false ErrRateLimited (by decide)).2.1,
    (C6_processing_derived_retryability "a" "b" "" "" "rl" "op" 60 false ErrRateLimited (by decide)).2.2⟩

/-- C7 counterexample: a RetryError whose wrapped last error is
ErrRateLimited.  Unwrap yields the ErrRetryExhausted sentinel, not the
configured last error, and the last error is not reachable anywhere in the
chain — refuting the claim that every variant's configured cause is reachable
by unwrap. -/
theorem C7_counterexample :
    Unwrap (NewRetryError 3 3 (some ErrRateLimited) [] []) = some ErrRetryExhausted ∧
      Unwrap (NewRetryError 3 3 (some ErrRateLimited) [] []) ≠ some ErrRateLimited ∧
      errIs (NewRetryError 3 3 (some ErrRateLimited) [] []) ErrRateLimited = false :=
  ⟨rfl,
    by simp [NewRetryError, applyOpts, Unwrap, ErrRetryExhausted, ErrRateLimited],
    by decide⟩

/-- C7 (amended): for the eight variants carrying an Err cause field, a set
cause is reachable: unwrap yields it and it appears in the chain.  RetryError
is the exception: its unwrap always yields the ErrRetryExhausted sentinel, so
its wrapped last error is not reachable through unwrap. -/
theorem C7_unwrap_amended :
    (∀ (s : Int) (m cp : String) (c : GoError),
        Unwrap (GoError.http s m cp (some c)) = some c ∧
          c ∈ chain (GoError.http s m cp (some c))) ∧
      (∀ (m o cp : String) (r : Int) (c : GoError),
        Unwrap (GoError.rateLimit m o cp r (some c)) = some c ∧
          c ∈ chain (GoError.rateLimit m o cp r (some c))) ∧
      (∀ (m o cp : String) (r : Int) (c : GoError),
        Unwrap (GoError.retryable m o cp r (some c)) = some c ∧
          c ∈ chain (GoError.retryable m o cp r (some c))) ∧
      (∀ (m o cp : String) (d : Int) (c : GoError),
        Unwrap (GoError.timeout m o cp d (some c)) = some c ∧
          c ∈ chain (GoError.timeout m o cp d (some c))) ∧
      (∀ (m f cp : String) (v : Option Int) (c : GoError),
        Unwrap (GoError.validation m f cp v (some c)) = some c ∧
          c ∈ chain (GoError.validation m f cp v (some c))) ∧
      (∀ (m o i cp : String) (b : Bool) (c : GoError),
        Unwrap (GoError.processing m o i cp b (some c)) = some c ∧
          c ∈ chain (GoError.processing m o i cp b (some c))) ∧
      (∀ (m o cp : String) (t : Bool) (c : GoError),
        Unwrap (GoError.network m o cp t (some c)) = some c ∧
          c ∈ chain (GoError.network m o cp t (some c))) ∧
      (∀ (m o cp st : String) (k : CircuitCounts) (c : GoError),
        Unwrap (GoError.circuitBreaker m o cp st k (some c)) = some c ∧
          c ∈ chain (GoError.circuitBreaker m o cp st k (some c))) ∧
      (∀ (a b : Int) (l : Option GoError) (al : List GoError) (o cp : String),
        Unwrap (GoError.retryErr a b l al o cp) = some ErrRetryExhausted) := by
  refine ⟨?_, ?_, ?_, ?_, ?_, ?_, ?_, ?_, ?_⟩ <;> intros <;>
    first
      | exact ⟨rfl, by simp [chain, chainRest]⟩
      | rfl

/-- C8: generic wrapping is transparent to classification of retryable
sentinels: at any wrap depth the chain still contains the sentinel and the
verdict is unchanged; in particular the doubly wrapped ErrRateLimited and the
wrapped ErrDeadlock behave as the bare sentinels. -/
theorem C8_wrapping_preserves_sentinels (msgs : List String) :
    errIs (wrapMany msgs ErrRateLimited) ErrRateLimited = true ∧
      IsRetryable (some (wrapMany msgs ErrRateLimited)) = true ∧
      errIs (wrapMany msgs ErrDeadlock) ErrDeadlock = true ∧
      IsRetryable (some (wrapMany msgs ErrDeadlock)) = true ∧
      IsTransientError (some (wrapMany msgs ErrDeadlock)) = true ∧
      errIs (Wrap (Wrap ErrRateLimited "a") "b") ErrRateLimited = true ∧
      IsRetryable (some (Wrap (Wrap ErrRateLimited "a") "b")) = true ∧
      IsRetryable (some (Wrap ErrDeadlock "transaction failed")) = true ∧
      IsTransientError (some (Wrap ErrDeadlock "transaction failed")) = true := by
  have hW : ∀ (i : Nat) (mm : String) (j : Nat) (n : String),
      errIs (wrapMany msgs (GoError.sentinel i mm)) (GoError.sentinel j n) =
        errIs (GoError.sentinel i mm) (GoError.sentinel j n) :=
    fun i mm j n => errIs_wrapMany_sentinel msgs (GoError.sentinel i mm) j n
  have hAs : ∀ (i : Nat) (mm : String),
      asRetryableVerdict (wrapMany msgs (GoError.sentinel i mm)) = none := by
    intro i mm
    rw [asRetryableVerdict_wrapMany]
    rfl
  have hNw : (chain (wrapMany msgs (GoError.sentinel 4 "database deadlock"))).any isNetworkNode = false := by
    rw [chain_any_wrapMany isNetworkNode (fun _ _ => rfl)]
    decide
  have hNe : (chain (wrapMany msgs (GoError.sentinel 4 "database deadlock"))).any isNetErrorNode = false := by
    rw [chain_any_wrapMany isNetErrorNode (fun _ _ => rfl)]
    decide
  refine ⟨?_, ?_, ?_, ?_, ?_, by decide, by decide, by decide, by decide⟩
  · simp only [ErrRateLimited]
    rw [hW]
    decide
  · simp only [ErrRateLimited, ErrNetworkTimeout, ErrServerError, ErrConnectionError,
      ErrDeadlock, ErrCircuitOpen, ctxDeadlineExceeded, ctxCanceled, IsRetryable, retryFallback]
    rw [hW, hW, hW, hAs]
    simp [errIs, chain, chainRest]
  · simp only [ErrDeadlock]
    rw [hW]
    decide
  · simp only [ErrRateLimited, ErrNetworkTimeout, ErrServerError, ErrConnectionError,
      ErrDeadlock, ErrCircuitOpen, ctxDeadlineExceeded, ctxCanceled, IsRetryable, retryFallback]
    rw [hW, hW, hW, hW, hW, hW, hW, hW, hAs]
    simp [errIs, chain, chainRest]
  · simp only [ErrRateLimited, ErrServerError, ErrConnectionError, ErrDeadlock,
      ctxDeadlineExceeded, ctxCanceled, IsTransientError, IsContextError, IsNetworkError]
    simp only [hW, hNw, hNe]
    simp [errIs, chain, chainRest]

/-- C10: the bare circuit-open sentinel (and the sentinel under generic wrap
layers, where nothing in the chain exposes the self-reports-retryability
capability) is classified as simultaneously retryable (sentinel membership in
IsRetryable) and permanent (circuit-open check in IsPermanentError). -/
theorem C10_circuit_open_retryable_and_permanent :
    IsRetryable (some ErrCircuitOpen) = true ∧
      IsPermanentError (some ErrCircuitOpen) = true ∧
      IsRetryable (some (Wrap (Wrap ErrCircuitOpen "a") "b")) = true ∧
      IsPermanentError (some (Wrap (Wrap ErrCircuitOpen "a") "b")) = true := by
  decide

/-- C9 counterexample: neither set-cause nor set-message is applicable to
all variants — applied to a RetryableError (which carries both an Err field
and a Message field) each is silently ignored, leaving the cause unset and
the message unchanged. -/
theorem C9_counterexample :
    NewRetryableError "m" "op" 5 [WithCause ErrRateLimited] = GoError.retryable "m" "op" "" 5 none ∧
      Unwrap (NewRetryableError "m" "op" 5 [WithCause ErrRateLimited]) = none ∧
      WithMessage "new message" (GoError.retryable "m" "op" "" 5 none) =
        GoError.retryable "m" "op" "" 5 none :=
  ⟨rfl, rfl, rfl⟩

/-- C9 (amended): the configuration mechanism provides the twelve enumerated
adjustments with their stated targets, with two exceptions forced by the
code: set-cause and set-message each cover only the seven shapes of their
type switch (HTTP, Validation, Timeout, RateLimit, Processing, Network,
CircuitBreaker) and are silently ignored on RetryableError and RetryError;
set-operation covers exactly its five stated targets; set-item-id,
set-retryable-flag, set-value, set-field, set-transient-flag, set-state and
set-status-code cover exactly their single stated target; set-component
(modelled from the spec) covers all nine variants and set-counts (modelled
from the spec) covers CircuitBreakerError only; every adjustment leaves
variants it does not target unchanged. -/
theorem C9_options_amended :
    (∀ (s : Int) (m cp : String) (e : Option GoError) (c : GoError),
        WithCause c (GoError.http s m cp e) = GoError.http s m cp (some c)) ∧
      (∀ (m f cp : String) (v : Option Int) (e : Option GoError) (c : GoError),
        WithCause c (GoError.validation m f cp v e) = GoError.validation m f cp v (some c)) ∧
      (∀ (m o cp : String) (d : Int) (e : Option GoError) (c : GoError),
        WithCause c (GoError.timeout m o cp d e) = GoError.timeout m o cp d (some c)) ∧
      (∀ (m o cp : String) (r : Int) (e : Option GoError) (c : GoError),
        WithCause c (GoError.rateLimit m o cp r e) = GoError.rateLimit m o cp r (some c)) ∧
      (∀ (m o i cp : String) (b : Bool) (e : Option GoError) (c : GoError),
        WithCause c (GoError.processing m o i cp b e) = GoError.processing m o i cp b (some c)) ∧
      (∀ (m o cp : String) (t : Bool) (e : Option GoError) (c : GoError),
        WithCause c (GoError.network m o cp t e) = GoError.network m o cp t (some c)) ∧
      (∀ (m o cp st : String) (k : CircuitCounts) (e : Option GoError) (c : GoError),
        WithCause c (GoError.circuitBreaker m o cp st k e) = GoError.circuitBreaker m o cp st k (some c)) ∧
      (∀ (m o cp : String) (r : Int) (e : Option GoError) (c : GoError),
        WithCause c (GoError.retryable m o cp r e) = GoError.retryable m o cp r e) ∧
      (∀ (a b : Int) (l : Option GoError) (al : List GoError) (o cp : String) (c : GoError),
        WithCause c (GoError.retryErr a b l al o cp) = GoError.retryErr a b l al o cp) ∧
      (∀ (s : Int) (m cp m2 : String) (e : Option GoError),
        WithMessage m2 (GoError.http s m cp e) = GoError.http s m2 cp e) ∧
      (∀ (m f cp m2 : String) (v : Option Int) (e : Option GoError),
        WithMessage m2 (GoError.validation m f cp v e) = GoError.validation m2 f cp v e) ∧
      (∀ (m o cp m2 : String) (d : Int) (e : Option GoError),
        WithMessage m2 (GoError.timeout m o cp d e) = GoError.timeout m2 o cp d e) ∧
      (∀ (m o cp m2 : String) (r : Int) (e : Option GoError),
        WithMessage m2 (GoError.rateLimit m o cp r e) = GoError.rateLimit m2 o cp r e) ∧
      (∀ (m o i cp m2 : String) (b : Bool) (e : Option GoError),
        WithMessage m2 (GoError.processing m o i cp b e) = GoError.processing m2 o i cp b e) ∧
      (∀ (m o cp m2 : String) (t : Bool) (e : Option GoError),
        WithMessage m2 (GoError.network m o cp t e) = GoError.network m2 o cp t e) ∧
      (∀ (m o cp st m2 : String) (k : CircuitCounts) (e : Option GoError),
        WithMessage m2 (GoError.circuitBreaker m o cp st k e) = GoError.circuitBreaker m2 o cp st k e) ∧
      (∀ (m o cp m2 : String) (r : Int) (e : Option GoError),
        WithMessage m2 (GoError.retryable m o cp r e) = GoError.retryable m o cp r e) ∧
      (∀ (a b : Int) (l : Option GoError) (al : List GoError) (o cp m2 : String),
        WithMessage m2 (GoError.retryErr a b l al o cp) = GoError.retryErr a b l al o cp) ∧
      (∀ (m o cp o2 : String) (d : Int) (e : Option GoError),
        WithOperation o2 (GoError.timeout m o cp d e) = GoError.timeout m o2 cp d e) ∧
      (∀ (m o cp o2 : String) (r : Int) (e : Option GoError),
        WithOperation o2 (GoError.rateLimit m o cp r e) = GoError.rateLimit m o2 cp r e) ∧
      (∀ (m o i cp o2 : String) (b : Bool) (e : Option GoError),
        WithOperation o2 (GoError.processing m o i cp b e) = GoError.processing m o2 i cp b e) ∧
      (∀ (m o cp o2 : String) (t : Bool) (e : Option GoError),
        WithOperation o2 (GoError.network m o cp t e) = GoError.network m o2 cp t e) ∧
      (∀ (m o cp st o2 : String) (k : CircuitCounts) (e : Option GoError),
        WithOperation o2 (GoError.circuitBreaker m o cp st k e) = GoError.circuitBreaker m o2 cp st k e) ∧
      (∀ (s : Int) (m cp o2 : String) (e : Option GoError),
        WithOperation o2 (GoError.http s m cp e) = GoError.http s m cp e) ∧
      (∀ (m f cp o2 : String) (v : Option Int) (e : Option GoError),
        WithOperation o2 (GoError.validation m f cp v e) = GoError.validation m f cp v e) ∧
      (∀ (m o cp o2 : String) (r : Int) (e : Option GoError),
        WithOperation o2 (GoError.retryable m o cp r e) = GoError.retryable m o cp r e) ∧
      (∀ (m o i cp i2 : String) (b : Bool) (e : Option GoError),
        WithItemID i2 (GoError.processing m o i cp b e) = GoError.processing m o i2 cp b e) ∧
      (∀ (m o cp : String) (t : Bool) (e : Option GoError) (i2 : String),
        WithItemID i2 (GoError.network m o cp t e) = GoError.network m o cp t e) ∧
      (∀ (m o i cp : String) (b b2 : Bool) (e : Option GoError),
        WithRetryable b2 (GoError.processing m o i cp b e) = GoError.processing m o i cp b2 e) ∧
      (∀ (m o cp : String) (t : Bool) (e : Option GoError) (b2 : Bool),
        WithRetryable b2 (GoError.network m o cp t e) = GoError.network m o cp t e) ∧
      (∀ (m f cp : String) (v : Option Int) (e : Option GoError) (v2 : Int),
        WithValue v2 (GoError.validation m f cp v e) = GoError.validation m f cp (some v2) e) ∧
      (∀ (s : Int) (m cp : String) (e : Option GoError) (v2 : Int),
        WithValue v2 (GoError.http s m cp e) = GoError.http s m cp e) ∧
      (∀ (m f cp f2 : String) (v : Option Int) (e : Option GoError),
        WithField f2 (GoError.validation m f cp v e) = GoError.validation m f2 cp v e) ∧
      (∀ (s : Int) (m cp f2 : String) (e : Option GoError),
        WithField f2 (GoError.http s m cp e) = GoError.http s m cp e) ∧
      (∀ (m o cp : String) (t t2 : Bool) (e : Option GoError),
        WithTransient t2 (GoError.network m o cp t e) = GoError.network m o cp t2 e) ∧
      (∀ (m o i cp : String) (b : Bool) (e : Option GoError) (t2 : Bool),
        WithTransient t2 (GoError.processing m o i cp b e) = GoError.processing m o i cp b e) ∧
      (∀ (m o cp st st2 : String) (k : CircuitCounts) (e : Option GoError),
        WithState st2 (GoError.circuitBreaker m o cp st k e) = GoError.circuitBreaker m o cp st2 k e) ∧
      (∀ (m o cp st2 : String) (t : Bool) (e : Option GoError),
        WithState st2 (GoError.network m o cp t e) = GoError.network m o cp t e) ∧
      (∀ (s s2 : Int) (m cp : String) (e : Option GoError),
        WithStatusCode s2 (GoError.http s m cp e) = GoError.http s2 m cp e) ∧
      (∀ (m f cp : String) (v : Option Int) (e : Option GoError) (s2 : Int),
        WithStatusCode s2 (GoError.validation m f cp v e) = GoError.validation m f cp v e) ∧
      (∀ (s : Int) (m cp0 cp : String) (e : Option GoError),
        WithComponent cp (GoError.http s m cp0 e) = GoError.http s m cp e) ∧
      (∀ (m o cp0 cp : String) (r : Int) (e : Option GoError),
        WithComponent cp (GoError.rateLimit m o cp0 r e) = GoError.rateLimit m o cp r e) ∧
      (∀ (m o cp0 cp : String) (r : Int) (e : Option GoError),
        WithComponent cp (GoError.retryable m o cp0 r e) = GoError.retryable m o cp r e) ∧
      (∀ (m o cp0 cp : String) (d : Int) (e : Option GoError),
        WithComponent cp (GoError.timeout m o cp0 d e) = GoError.timeout m o cp d e) ∧
      (∀ (m f cp0 cp : String) (v : Option Int) (e : Option GoError),
        WithComponent cp (GoError.validation m f cp0 v e) = GoError.validation m f cp v e) ∧
      (∀ (m o i cp0 cp : String) (b : Bool) (e : Option GoError),
        WithComponent cp (GoError.processing m o i cp0 b e) = GoError.processing m o i cp b e) ∧
      (∀ (m o cp0 cp : String) (t : Bool) (e : Option GoError),
        WithComponent cp (GoError.network m o cp0 t e) = GoError.network m o cp t e) ∧
      (∀ (m o cp0 cp st : String) (k : CircuitCounts) (e : Option GoError),
        WithComponent cp (GoError.circuitBreaker m o cp0 st k e) = GoError.circuitBreaker m o cp st k e) ∧
      (∀ (a b : Int) (l : Option GoError) (al : List GoError) (o cp0 cp : String),
        WithComponent cp (GoError.retryErr a b l al o cp0) = GoError.retryErr a b l al o cp) ∧
      (∀ (i : Nat) (m cp : String), WithComponent cp (GoError.sentinel i m) = GoError.sentinel i m) ∧
      (∀ (m cp : String) (c : GoError), WithComponent cp (GoError.wrapped m c) = GoError.wrapped m c) ∧
      (∀ (m o cp st : String) (k0 k : CircuitCounts) (e : Option GoError),
        WithCounts k (GoError.circuitBreaker m o cp st k0 e) = GoError.circuitBreaker m o cp st k e) ∧
      (∀ (s : Int) (m cp : String) (e : Option GoError) (k : CircuitCounts),
        WithCounts k (GoError.http s m cp e) = GoError.http s m cp e) ∧
      (∀ (a b : Int) (l : Option GoError) (al : List GoError) (o cp : String) (k : CircuitCounts),
        WithCounts k (GoError.retryErr a b l al o cp) = GoError.retryErr a b l al o cp) := by
  repeat' apply And.intro
  all_goals intros
  all_goals rfl
